import Mathlib

/-!
Shallow embedding of `src/server.py` (gnucash-mcp), the ledger access and
mutation engine of a GnuCash MCP server.  Python floats are modelled as
rationals (`ℚ`); the Python standard library pieces the code calls
(`str.endswith`, `in` on strings, `round`, `sorted`, `datetime.strptime`,
list slicing) are modelled by explicit Lean functions next to their use
sites.  External effects (the `pgrep` probe, the filesystem, the GnuCash
`Session` constructor) are modelled as explicit state carried in a `World`
structure.
-/

/-- Result of the `subprocess.run(["pgrep", "-x", "gnucash"], timeout=5)` probe
in `is_gnucash_running` (server.py lines 31-41): either the subprocess
completed with a return code, or it raised (e.g. `TimeoutExpired`). -/
inductive ProbeResult where
  | ok (returncode : Int)
  | failed
deriving DecidableEq

/-- A GnuCash commodity as the code uses it: `get_mnemonic()` and
`get_fraction()` (e.g. 100 for a 2-decimal currency). -/
structure Commodity where
  mnemonic : String
  fraction : Int
deriving DecidableEq

/-- `GncNumeric(num, denom)`: an exact fixed-point number. -/
structure GncNumeric where
  num : Int
  den : Int
deriving DecidableEq

/-- `float(g.num()) / float(g.denom())`, the decimal conversion the code
performs on `GncNumeric` values, modelled over `ℚ`. -/
def gncToRat (g : GncNumeric) : ℚ := (g.num : ℚ) / (g.den : ℚ)

/-- A calendar date (the code formats dates as `%Y-%m-%d`). -/
structure Date where
  year : Nat
  month : Nat
  day : Nat
deriving DecidableEq

/-- One entry of an account's `GetSplitList()` as `get_transactions` reads it:
the parent transaction's date and description and the split's value. -/
structure AccSplit where
  txnDate : Date
  txnDescription : String
  value : GncNumeric
deriving DecidableEq

/-- An account as enumerated by `root.get_descendants()`, with the fields the
server reads: `get_full_name()`, `GetType()`, `GetCommodity()`,
`GetDescription()`, `GetCode()`, `GetBalance()`, `GetClearedBalance()`,
`GetReconciledBalance()`, `GetSplitList()`, `get_children()` names. -/
structure Account where
  fullName : String
  typeCode : Int
  commodity : Option Commodity
  description : String
  code : String
  balance : GncNumeric
  clearedBalance : GncNumeric
  reconciledBalance : GncNumeric
  splits : List AccSplit
  children : List String
deriving DecidableEq

/-- One split of a transaction under construction (`Split(book)` with
`SetAccount`, `SetValue`, `SetAmount`, `SetMemo`). The account is referenced
by its full name. -/
structure Split where
  account : String
  value : GncNumeric
  amount : GncNumeric
  memo : Option String
deriving DecidableEq

/-- A committed transaction (`Transaction(book)` with `SetCurrency`,
`SetDescription`, `SetDateEnteredSecs`, `SetDatePostedSecs` and its splits). -/
structure Transaction where
  currency : Commodity
  description : String
  enteredDate : Date
  postedDate : Date
  splits : List Split
deriving DecidableEq

/-- The open book: the account tree (as the `get_descendants()` enumeration)
and the committed transactions. -/
structure Book where
  accounts : List Account
  transactions : List Transaction
deriving DecidableEq

/-- Outcome of the `Session(file_path, mode)` constructor: the opened book,
or the exception message it raised. -/
inductive OpenOutcome where
  | opened (book : Book)
  | raised (msg : String)
deriving DecidableEq

/-- The server's state and its environment: the `current_session` /
`configured_file` globals, and the external facts a single call observes
(`os.path.exists` on the target file and its `.LCK`, the `pgrep` probe
outcome, whether `os.remove` on the lock succeeds, what the `Session`
constructor yields, and the `write_mode` flag). -/
structure World where
  session : Option Book
  configuredFile : Option String
  fileExists : Bool
  lockExists : Bool
  probe : ProbeResult
  removeSucceeds : Bool
  openOutcome : OpenOutcome
  write_mode : Bool
deriving DecidableEq

/-- `get_no_file_error` (server.py lines 24-28). -/
def get_no_file_error (w : World) : String :=
  match w.configuredFile with
  | some p => "Error: No GnuCash file is open. Use open_file with path: " ++ p
  | none => "Error: No GnuCash file is open. Use open_file to open a file first."

/-- Python `needle in hay` on lists of characters: `needle` occurs
contiguously inside `hay`. -/
def listContains (needle : List Char) : List Char → Bool
  | [] => needle.isEmpty
  | c :: t => needle.isPrefixOf (c :: t) || listContains needle t

/-- Python `needle in hay` on strings (substring containment). -/
def strContains (hay needle : String) : Bool :=
  listContains needle.toList hay.toList

/-- Python `s.endswith(t)`. -/
def strEndsWith (s t : String) : Bool :=
  t.toList.isSuffixOf s.toList

/-- Python `s.lower()` (character-wise, as `str.lower` acts on ASCII). -/
def strToLower (s : String) : String :=
  String.mk (s.toList.map Char.toLower)

/-- Python `s.upper()` (character-wise, as `str.upper` acts on ASCII). -/
def strToUpper (s : String) : String :=
  String.mk (s.toList.map Char.toUpper)

/-- `is_gnucash_running` (server.py lines 31-41): true iff `pgrep -x gnucash`
exits 0; on any exception (including timeout) returns `False`
("Assume not running if we can't check"). -/
def is_gnucash_running (probe : ProbeResult) : Bool :=
  match probe with
  | .ok rc => rc == 0
  | .failed => false

/-- `remove_stale_lock` (server.py lines 44-62): returns `True` if the lock
was removed or did not exist, `False` if GnuCash is running or removal
failed. Returns the updated filesystem state alongside. -/
def remove_stale_lock (w : World) : World × Bool :=
  if w.lockExists = false then (w, true)
  else if is_gnucash_running w.probe then (w, false)
  else if w.removeSucceeds then ({ w with lockExists := false }, true)
  else (w, false)

/-- `find_account` (server.py lines 85-102): first scan returns the first
descendant whose full name equals the query or ends with `"." + query`;
second scan returns the first case-insensitive substring match. -/
def find_account (descendants : List Account) (account_name : String) :
    Option Account :=
  match descendants.find? (fun acc =>
      acc.fullName == account_name
        || strEndsWith acc.fullName ("." ++ account_name)) with
  | some acc => some acc
  | none =>
    descendants.find? (fun acc =>
      strContains (strToLower acc.fullName) (strToLower account_name))

/-- The inline account search duplicated in `get_account_balance`
(lines 219-231), `get_transactions` (lines 265-277) and `get_account_info`
(lines 353-365): unlike `find_account`, the first scan tests
`full_name.endswith(account_name)` without prepending `"."`. -/
def resolve_read_query (descendants : List Account) (account_name : String) :
    Option Account :=
  match descendants.find? (fun acc =>
      acc.fullName == account_name
        || strEndsWith acc.fullName account_name) with
  | some acc => some acc
  | none =>
    descendants.find? (fun acc =>
      strContains (strToLower acc.fullName) (strToLower account_name))

/-- `get_account_type_name` (server.py lines 105-124). -/
def get_account_type_name (type_code : Int) : String :=
  if type_code = 0 then "BANK"
  else if type_code = 1 then "CASH"
  else if type_code = 2 then "ASSET"
  else if type_code = 3 then "CREDIT"
  else if type_code = 4 then "LIABILITY"
  else if type_code = 5 then "STOCK"
  else if type_code = 6 then "MUTUAL"
  else if type_code = 7 then "CURRENCY"
  else if type_code = 8 then "INCOME"
  else if type_code = 9 then "EXPENSE"
  else if type_code = 10 then "EQUITY"
  else if type_code = 11 then "RECEIVABLE"
  else if type_code = 12 then "PAYABLE"
  else if type_code = 13 then "ROOT"
  else if type_code = 14 then "TRADING"
  else "UNKNOWN(" ++ toString type_code ++ ")"

/-- Zero-pad a natural to 2 digits (as `%m`, `%d` and `%.2f` fractions do). -/
def pad2 (n : Nat) : String :=
  if n < 10 then "0" ++ toString n else toString n

/-- Zero-pad a natural to 4 digits (as `strftime("%Y")` does for years). -/
def pad4 (n : Nat) : String :=
  if n < 10 then "000" ++ toString n
  else if n < 100 then "00" ++ toString n
  else if n < 1000 then "0" ++ toString n
  else toString n

/-- `strftime("%Y-%m-%d")`. -/
def formatDate (d : Date) : String :=
  pad4 d.year ++ "-" ++ pad2 d.month ++ "-" ++ pad2 d.day

/-- Python `round` (round half to even), applied by the code to
`amount * fraction`; modelled on `ℚ`. -/
def pyRound (q : ℚ) : Int :=
  let f := ⌊q⌋
  let r := q - f
  if r < 1 / 2 then f
  else if 1 / 2 < r then f + 1
  else if f % 2 = 0 then f else f + 1

/-- Python `f"{x:.2f}"` on the decimal value, modelled on `ℚ`: round to
hundredths (half to even, as float formatting does) and render with two
fraction digits. -/
def formatFixed2 (q : ℚ) : String :=
  let cents := pyRound (q * 100)
  let sign := if cents < 0 then "-" else ""
  let a := cents.natAbs
  sign ++ toString (a / 100) ++ "." ++ pad2 (a % 100)

/-- Right-align a string in a field of width `n` (Python `f"{s:>n}"`). -/
def padLeft (n : Nat) (s : String) : String :=
  String.mk (List.replicate (n - s.length) ' ') ++ s

/-- `commodity.get_mnemonic() if commodity else "?"`. -/
def currencyName (o : Option Commodity) : String :=
  match o with
  | some c => c.mnemonic
  | none => "?"

/-- Python list slice `l[i:]`: a negative `i` counts from the end
(clamped at 0), a nonnegative `i` is clamped at the length. -/
def pySliceFrom (l : List α) (i : Int) : List α :=
  if i < 0 then l.drop (max 0 ((l.length : Int) + i)).toNat
  else l.drop (min i (l.length : Int)).toNat

/-- Python `s.split("-")` on a character list: dash-separated fields. -/
def splitDash : List Char → List (List Char)
  | [] => [[]]
  | c :: t =>
    if c = '-' then [] :: splitDash t
    else
      match splitDash t with
      | [] => [[c]]
      | h :: r => (c :: h) :: r

/-- True iff the field is nonempty and all characters are ASCII digits. -/
def isDigitStr (cs : List Char) : Bool :=
  !cs.isEmpty && cs.all Char.isDigit

/-- Numeric value of a digit field. -/
def natOfDigits (cs : List Char) : Nat :=
  cs.foldl (fun n c => n * 10 + (c.toNat - 48)) 0

/-- Gregorian leap year. -/
def isLeap (y : Nat) : Bool :=
  (y % 4 == 0 && y % 100 != 0) || y % 400 == 0

/-- Days in a month of the Gregorian calendar. -/
def daysInMonth (y m : Nat) : Nat :=
  if m = 2 then (if isLeap y then 29 else 28)
  else if m = 4 ∨ m = 6 ∨ m = 9 ∨ m = 11 then 30
  else 31

/-- Modelled after `datetime.datetime.strptime(date, "%Y-%m-%d")` (a Python
standard-library call at server.py line 464): three dash-separated numeric
fields (year up to 4 digits, month and day up to 2), month 1-12, day valid
for the month; any other shape raises `ValueError`, modelled as `none`. -/
def parseDateYMD (s : String) : Option Date :=
  match splitDash s.toList with
  | [ys, ms, ds] =>
    if isDigitStr ys ∧ ys.length ≤ 4 ∧ isDigitStr ms ∧ ms.length ≤ 2
        ∧ isDigitStr ds ∧ ds.length ≤ 2 then
      let y := natOfDigits ys
      let m := natOfDigits ms
      let d := natOfDigits ds
      if 1 ≤ m ∧ m ≤ 12 ∧ 1 ≤ d ∧ d ≤ daysInMonth y m then
        some ⟨y, m, d⟩
      else none
    else none
  | _ => none

/-- The date-selection step of `add_transaction` (server.py lines 461-468):
parse `date` when supplied, default to `datetime.datetime.now()` otherwise. -/
def parseTxDate (date : Option String) (now : Date) : Option Date :=
  match date with
  | some s => parseDateYMD s
  | none => some now

/-- The `dest_commodity and commodity.get_mnemonic() != dest_commodity.get_mnemonic()`
test of `add_transaction` (server.py line 458). -/
def currencyMismatch (c : Commodity) (dc : Option Commodity) : Bool :=
  match dc with
  | some d => c.mnemonic != d.mnemonic
  | none => false

/-- The `Session(file_path, mode)` call with its surrounding `except` clause
(server.py lines 153-164): on success install the session and report the
mode; on an exception mention `break_lock` when the message contains
"LOCKED" (case-insensitively via `.upper()`). -/
def openStore (w : World) (file_path : String) : World × String :=
  match w.openOutcome with
  | .opened book =>
    if w.write_mode then
      ({ w with session := some book },
       "Successfully opened GnuCash file (read-write): " ++ file_path)
    else
      ({ w with session := some book },
       "Successfully opened GnuCash file (read-only): " ++ file_path)
  | .raised e =>
    if strContains (strToUpper e) "LOCKED" then
      (w, "Error opening file: " ++ e
        ++ ". Try with break_lock=True if GnuCash is not running.")
    else
      (w, "Error opening file: " ++ e)

/-- `open_file` (server.py lines 127-164): close any existing session, check
the file exists, optionally break a stale lock, then open the store. -/
def open_file (w : World) (file_path : String) (break_lock : Bool) :
    World × String :=
  let w1 : World := { w with session := none }
  if w1.fileExists = false then
    (w1, "Error: File not found: " ++ file_path)
  else if break_lock && w1.lockExists then
    if is_gnucash_running w1.probe then
      (w1, "Error: Cannot break lock - GnuCash application is currently running. Close GnuCash first.")
    else
      openStore (remove_stale_lock w1).1 file_path
  else
    openStore w1 file_path

/-- `close_file` (server.py lines 167-176). -/
def close_file (w : World) : World × String :=
  match w.session with
  | some _ => ({ w with session := none }, "File closed successfully.")
  | none => (w, "No file is currently open.")

/-- The line `f"{acc.get_full_name()} ({type_name})"` built per account in
`list_accounts` (server.py line 194). -/
def accountLine (a : Account) : String :=
  a.fullName ++ " (" ++ get_account_type_name a.typeCode ++ ")"

/-- `list_accounts` (server.py lines 179-198): the per-account lines, sorted
(Python `sorted`, ascending lexicographic), joined by newlines. -/
def list_accounts (w : World) : String :=
  match w.session with
  | none => get_no_file_error w
  | some book =>
    String.intercalate "\n"
      (List.insertionSort (· ≤ ·) (book.accounts.map accountLine))

/-- `get_account_balance` (server.py lines 201-245). -/
def get_account_balance (w : World) (account_name : String) : String :=
  match w.session with
  | none => get_no_file_error w
  | some book =>
    match resolve_read_query book.accounts account_name with
    | none => "Error: Account \x27" ++ account_name ++ "\x27 not found."
    | some a =>
      "Balance of " ++ a.fullName ++ ": "
        ++ formatFixed2 (gncToRat a.balance) ++ " " ++ currencyName a.commodity

/-- One output line of `get_transactions` (server.py line 297):
`f"{date} | {value_decimal:>10.2f} {currency} | {desc}"`. -/
def renderTxLine (currency : String) (s : AccSplit) : String :=
  formatDate s.txnDate ++ " | " ++ padLeft 10 (formatFixed2 (gncToRat s.value))
    ++ " " ++ currency ++ " | " ++ s.txnDescription

/-- `get_transactions` (server.py lines 248-303): resolve the account, take
`splits[-limit:]` and render one line per split under a header. -/
def get_transactions (w : World) (account_name : String) (limit : Int) :
    String :=
  match w.session with
  | none => get_no_file_error w
  | some book =>
    match resolve_read_query book.accounts account_name with
    | none => "Error: Account \x27" ++ account_name ++ "\x27 not found."
    | some target =>
      if target.splits.isEmpty then
        "No transactions found for " ++ target.fullName ++ "."
      else
        "Transactions for " ++ target.fullName ++ ":\n"
          ++ String.mk (List.replicate 60 '-') ++ "\n"
          ++ String.intercalate "\n"
              ((pySliceFrom target.splits (-limit)).map
                (renderTxLine (currencyName target.commodity)))

/-- `get_account_info` (server.py lines 337-407). -/
def get_account_info (w : World) (account_name : String) : String :=
  match w.session with
  | none => get_no_file_error w
  | some book =>
    match resolve_read_query book.accounts account_name with
    | none => "Error: Account \x27" ++ account_name ++ "\x27 not found."
    | some a =>
      let currency := currencyName a.commodity
      "Account: " ++ a.fullName
        ++ "\nType: " ++ get_account_type_name a.typeCode
        ++ "\nDescription: "
        ++ (if a.description = "" then "(none)" else a.description)
        ++ "\nCode: " ++ (if a.code = "" then "(none)" else a.code)
        ++ "\nCurrency: " ++ currency
        ++ "\nBalance: " ++ formatFixed2 (gncToRat a.balance) ++ " " ++ currency
        ++ "\nCleared Balance: " ++ formatFixed2 (gncToRat a.clearedBalance)
        ++ " " ++ currency
        ++ "\nReconciled Balance: "
        ++ formatFixed2 (gncToRat a.reconciledBalance) ++ " " ++ currency
        ++ "\nNumber of Transactions: " ++ toString a.splits.length
        ++ "\nChild Accounts: "
        ++ (if a.children = [] then "(none)"
            else String.intercalate ", " a.children)

/-- `add_transaction` (server.py lines 410-509): validate session, amount,
accounts, commodity, currency match and date, then build and commit a
two-split transaction into the book. Returns the new state and the text
result. `amount` (a Python float) is modelled as `ℚ`; `now` stands for
`datetime.datetime.now()`. -/
def add_transaction (w : World) (from_account to_account : String)
    (amount : ℚ) (description : String) (date : Option String)
    (memo : Option String) (now : Date) : World × String :=
  match w.session with
  | none => (w, get_no_file_error w)
  | some book =>
    if amount ≤ 0 then
      (w, "Error: Amount must be a positive number.")
    else
      match find_account book.accounts from_account with
      | none =>
        (w, "Error: Source account \x27" ++ from_account ++ "\x27 not found.")
      | some source_account =>
        match find_account book.accounts to_account with
        | none =>
          (w, "Error: Destination account \x27" ++ to_account
            ++ "\x27 not found.")
        | some dest_account =>
          match source_account.commodity with
          | none =>
            (w, "Error: Source account has no currency/commodity set.")
          | some commodity =>
            if currencyMismatch commodity dest_account.commodity then
              (w, "Error: Account currencies don\x27t match ("
                ++ commodity.mnemonic ++ " vs "
                ++ currencyName dest_account.commodity
                ++ "). Multi-currency transactions are not supported.")
            else
              match parseTxDate date now with
              | none => (w, "Error: Invalid date format. Use YYYY-MM-DD.")
              | some tx_date =>
                let fraction := commodity.fraction
                let amount_int := pyRound (amount * (fraction : ℚ))
                let split_from : Split :=
                  { account := source_account.fullName
                    value := ⟨-amount_int, fraction⟩
                    amount := ⟨-amount_int, fraction⟩
                    memo := memo }
                let split_to : Split :=
                  { account := dest_account.fullName
                    value := ⟨amount_int, fraction⟩
                    amount := ⟨amount_int, fraction⟩
                    memo := memo }
                let tx : Transaction :=
                  { currency := commodity
                    description := description
                    enteredDate := now
                    postedDate := tx_date
                    splits := [split_from, split_to] }
                let book2 : Book :=
                  { book with transactions := book.transactions ++ [tx] }
                ({ w with session := some book2 },
                 "Transaction created successfully:\n  "
                   ++ formatFixed2 amount ++ " " ++ commodity.mnemonic
                   ++ " from " ++ source_account.fullName
                   ++ " to " ++ dest_account.fullName
                   ++ "\n  Description: " ++ description
                   ++ "\n  Date: " ++ formatDate tx_date
                   ++ "\n\nNote: Use save_file to persist changes to disk.")

/-- The conjunction of `add_transaction`'s validations (server.py lines
432-466), in source order: an acceptance predicate — `false` exactly when
one of the checks rejects the call before anything is constructed. -/
def addTxAccepted (w : World) (from_account to_account : String)
    (amount : ℚ) (date : Option String) : Bool :=
  match w.session with
  | none => false
  | some book =>
    if amount ≤ 0 then false
    else
      match find_account book.accounts from_account with
      | none => false
      | some source_account =>
        match find_account book.accounts to_account with
        | none => false
        | some dest_account =>
          match source_account.commodity with
          | none => false
          | some commodity =>
            if currencyMismatch commodity dest_account.commodity then false
            else
              match date with
              | some s => (parseDateYMD s).isSome
              | none => true

/-- Sum of a committed transaction's split values in the transaction
currency, as rationals. -/
def txValueSum (tx : Transaction) : ℚ :=
  (tx.splits.map (fun s => gncToRat s.value)).sum

/-- The state produced by a successful `add_transaction` commit: the same
world with the new transaction appended to the open book. -/
def commitTx (w : World) (book : Book) (tx : Transaction) : World :=
  { w with session := some { book with transactions := book.transactions ++ [tx] } }

/-- An account with the given name, type and commodity and no other data;
used for concrete test trees. -/
def mkAccount (name : String) (tc : Int) (c : Option Commodity) : Account :=
  { fullName := name, typeCode := tc, commodity := c, description := "",
    code := "", balance := ⟨0, 1⟩, clearedBalance := ⟨0, 1⟩,
    reconciledBalance := ⟨0, 1⟩, splits := [], children := [] }

def usd : Commodity := ⟨"USD", 100⟩

def eur : Commodity := ⟨"EUR", 100⟩

def accChecking : Account := mkAccount "Assets.Bank.Checking" 0 (some usd)

def accSavings : Account := mkAccount "Assets.Bank.Savings" 0 (some usd)

def accEuro : Account := mkAccount "Assets.Euro" 0 (some eur)

def bookW : Book := ⟨[accChecking, accSavings, accEuro], []⟩

def bookEmpty : Book := ⟨[], []⟩

/-- An open read-write world over `bookW`. -/
def wOpen : World :=
  { session := some bookW, configuredFile := none, fileExists := true,
    lockExists := false, probe := ProbeResult.ok 1, removeSucceeds := true,
    openOutcome := OpenOutcome.raised "e", write_mode := true }

/-- A world with no session, an existing target file, a stale lock, a probe
that raises, and a store that would open successfully. -/
def wStale : World :=
  { session := none, configuredFile := none, fileExists := true,
    lockExists := true, probe := ProbeResult.failed, removeSucceeds := true,
    openOutcome := OpenOutcome.opened bookEmpty, write_mode := false }

/-- An open world over the empty book. -/
def wEmptyOpen : World :=
  { session := some bookEmpty, configuredFile := none, fileExists := true,
    lockExists := false, probe := ProbeResult.ok 1, removeSucceeds := true,
    openOutcome := OpenOutcome.raised "e", write_mode := false }

/-- `List.find?` returns the head of the filtered list: the "first hit of a
full scan" reading of the Python `for ... return` loops. -/
theorem find_eq_head_filter {α : Type} (p : α → Bool) (l : List α) :
    l.find? p = (l.filter p).head? := by
  induction l with
  | nil => rfl
  | cons a t ih =>
    cases h : p a with
    | true => simp only [List.find?_cons, List.filter_cons, h, cond_true, if_pos rfl]; rfl
    | false => simp only [List.find?_cons, List.filter_cons, h, cond_false, if_neg, Bool.false_eq_true, not_false_eq_true]; exact ih

def accBC : Account := mkAccount "B.Checking" 0 none

def accPlainChecking : Account := mkAccount "Checking" 0 none

/-- C3 counterexample: with descendants `["B.Checking", "Checking"]` and
query `"Checking"`, the exact match `"Checking"` exists but `find_account`
returns the earlier suffix match `"B.Checking"`: the first scan tests exact
and suffix together, so the exact tier is not exhausted first. -/
theorem find_account_suffix_shadows_exact_cex :
    find_account [accBC, accPlainChecking] "Checking" = some accBC
    ∧ accPlainChecking.fullName = "Checking"
    ∧ accBC.fullName ≠ "Checking"
    ∧ strEndsWith accBC.fullName ("." ++ "Checking") = true := by
  decide

/-- C3 (amended): `find_account` applies two scans, not three tiers: the
first scan returns the first descendant whose full name equals the query
**or** ends with `"." + query` (so an earlier suffix match wins over a later
exact match); only when no descendant passes that combined test is the
first case-insensitive substring match returned; `none` iff no scan hits. -/
theorem find_account_merged_tiering (descendants : List Account) (q : String) :
    find_account descendants q =
      match (descendants.filter (fun a =>
          a.fullName == q || strEndsWith a.fullName ("." ++ q))).head? with
      | some a => some a
      | none =>
        (descendants.filter (fun a =>
          strContains (strToLower a.fullName) (strToLower q))).head? := by
  unfold find_account
  rw [find_eq_head_filter, find_eq_head_filter]

def accFees : Account := mkAccount "Assets.Checking Fees" 9 none

def accMyChecking : Account := mkAccount "Assets.MyChecking" 0 none

/-- C7 counterexample: the inline resolver of the read queries accepts
`"Assets.MyChecking"` for query `"Checking"` in its first scan even though
the full path does not end with `".Checking"` — and thereby returns a
different account than the §4.3 `find_account` on the same tree. -/
theorem read_resolver_dotless_suffix_cex :
    resolve_read_query [accFees, accMyChecking] "Checking" = some accMyChecking
    ∧ strEndsWith accMyChecking.fullName ("." ++ "Checking") = false
    ∧ strEndsWith accMyChecking.fullName "Checking" = true
    ∧ find_account [accFees, accMyChecking] "Checking" = some accFees := by
  decide

/-- C7 (amended): the read queries resolve with a first scan matching exact
equality **or** `endswith(query)` without a prepended dot (a full path merely
ending with the query characters is a first-scan hit), then a
case-insensitive substring scan; `get_account_balance`, `get_transactions`
and `get_account_info` all report not-found exactly when this resolver finds
nothing. -/
theorem read_resolver_tiering :
    (∀ (descendants : List Account) (q : String),
      resolve_read_query descendants q =
        match (descendants.filter (fun a =>
            a.fullName == q || strEndsWith a.fullName q)).head? with
        | some a => some a
        | none =>
          (descendants.filter (fun a =>
            strContains (strToLower a.fullName) (strToLower q))).head?)
    ∧ (∀ (w : World) (book : Book) (q : String), w.session = some book →
        resolve_read_query book.accounts q = none →
          get_account_balance w q
              = "Error: Account \x27" ++ q ++ "\x27 not found."
            ∧ get_transactions w q 20
              = "Error: Account \x27" ++ q ++ "\x27 not found."
            ∧ get_account_info w q
              = "Error: Account \x27" ++ q ++ "\x27 not found.") := by
  constructor
  · intro descendants q
    unfold resolve_read_query
    rw [find_eq_head_filter, find_eq_head_filter]
  · intro w book q hs hr
    refine ⟨?_, ?_, ?_⟩ <;>
      simp [get_account_balance, get_transactions, get_account_info, hs, hr]

/-- C7 witness: on the empty tree, every query misses and all three read
queries report not-found. -/
theorem read_resolver_tiering_witness :
    get_account_balance wEmptyOpen "X"
        = "Error: Account \x27" ++ "X" ++ "\x27 not found."
      ∧ get_transactions wEmptyOpen "X" 20
        = "Error: Account \x27" ++ "X" ++ "\x27 not found."
      ∧ get_account_info wEmptyOpen "X"
        = "Error: Account \x27" ++ "X" ++ "\x27 not found." :=
  read_resolver_tiering.2 wEmptyOpen bookEmpty "X" rfl rfl

/-- C4 counterexample: when the probe raises, `is_gnucash_running` returns
`False`, so `remove_stale_lock` deletes the lock file and
`open_file(break_lock=True)` proceeds all the way to a successful open —
the owner is treated as absent, not present. -/
theorem probe_failure_lock_removed_cex :
    is_gnucash_running ProbeResult.failed = false
    ∧ remove_stale_lock wStale = ({ wStale with lockExists := false }, true)
    ∧ open_file wStale "book.gnucash" true
        = ({ wStale with lockExists := false, session := some bookEmpty },
           "Successfully opened GnuCash file (read-only): book.gnucash") := by
  decide

/-- C4 (amended): on any probe failure (exception or timeout) the owning
application is treated as **absent**: `is_gnucash_running` returns `False`,
and `remove_stale_lock` removes an existing lock file (when deletion
succeeds) and reports success, letting the reclaim/open attempt proceed. -/
theorem probe_failure_treated_absent (w : World)
    (hp : w.probe = ProbeResult.failed) :
    is_gnucash_running w.probe = false
    ∧ (w.lockExists = true → w.removeSucceeds = true →
        remove_stale_lock w = ({ w with lockExists := false }, true)) := by
  constructor
  · rw [hp]; rfl
  · intro hl hr
    simp [remove_stale_lock, hl, hp, hr, is_gnucash_running]

/-- C4 witness at the concrete stale-lock world. -/
theorem probe_failure_treated_absent_witness :
    is_gnucash_running wStale.probe = false
    ∧ (wStale.lockExists = true → wStale.removeSucceeds = true →
        remove_stale_lock wStale = ({ wStale with lockExists := false }, true)) :=
  probe_failure_treated_absent wStale rfl

/-- C5: when the target file and its lock file both exist,
`open_file(break_lock=True)` with the probe reporting GnuCash running
returns the break-lock error, leaves the lock file in place and opens no
session; with the probe reporting it absent (and deletion succeeding) the
lock file is removed and the call proceeds to the store open, installing
the session when the store opens. -/
theorem open_file_break_lock_behavior (w : World) (path : String)
    (hf : w.fileExists = true) (hl : w.lockExists = true) :
    (is_gnucash_running w.probe = true →
      open_file w path true
        = ({ w with session := none },
           "Error: Cannot break lock - GnuCash application is currently running. Close GnuCash first.")
      ∧ (open_file w path true).1.lockExists = true
      ∧ (open_file w path true).1.session = none)
    ∧ (is_gnucash_running w.probe = false → w.removeSucceeds = true →
      (open_file w path true).1.lockExists = false
      ∧ open_file w path true
          = openStore { w with session := none, lockExists := false } path
      ∧ ∀ book, w.openOutcome = OpenOutcome.opened book →
          (open_file w path true).1.session = some book) := by
  obtain ⟨s, cf, fe, le, pr, rs, oo, wm⟩ := w
  simp only at hf hl
  subst hf
  subst hl
  constructor
  · intro hrun
    simp only at hrun
    simp [open_file, hrun]
  · intro hrun hrem
    simp only at hrun hrem
    have key : open_file ⟨s, cf, true, true, pr, rs, oo, wm⟩ path true
        = openStore ⟨none, cf, true, false, pr, rs, oo, wm⟩ path := by
      simp [open_file, remove_stale_lock, hrun, hrem]
    refine ⟨?_, key, ?_⟩
    · rw [key]
      cases oo with
      | opened book => cases wm <;> simp [openStore]
      | raised e =>
        by_cases hlk : strContains (strToUpper e) "LOCKED" = true <;>
          simp [openStore, hlk]
    · intro book hb
      simp only at hb
      rw [key]
      subst hb
      cases wm <;> simp [openStore]

/-- C5 witness at the stale-lock world whose store opens successfully. -/
theorem open_file_break_lock_behavior_witness :
    (open_file wStale "book.gnucash" true).1.lockExists = false
    ∧ open_file wStale "book.gnucash" true
        = openStore { wStale with session := none, lockExists := false }
            "book.gnucash"
    ∧ (open_file wStale "book.gnucash" true).1.session = some bookEmpty := by
  have h := (open_file_break_lock_behavior wStale "book.gnucash" rfl rfl).2 rfl rfl
  exact ⟨h.1, h.2.1, h.2.2 bookEmpty rfl⟩

/-- C9: `open_file` on a nonexistent path first ends any open session, so
the file-not-found failure leaves no session open. -/
theorem open_file_missing_file_ends_session (w : World) (path : String)
    (break_lock : Bool) (book : Book) (_hs : w.session = some book)
    (hf : w.fileExists = false) :
    open_file w path break_lock
      = ({ w with session := none }, "Error: File not found: " ++ path)
      ∧ (open_file w path break_lock).1.session = none := by
  constructor <;> simp [open_file, hf]

def wNoFile : World :=
  { session := some bookW, configuredFile := some "/ledger.gnucash",
    fileExists := false, lockExists := false, probe := ProbeResult.ok 0,
    removeSucceeds := true, openOutcome := OpenOutcome.raised "e",
    write_mode := false }

/-- C9 witness: a world with an open session and a missing target file. -/
theorem open_file_missing_file_ends_session_witness :
    open_file wNoFile "/tmp/missing.gnucash" false
      = ({ wNoFile with session := none },
         "Error: File not found: " ++ "/tmp/missing.gnucash")
      ∧ (open_file wNoFile "/tmp/missing.gnucash" false).1.session = none :=
  open_file_missing_file_ends_session wNoFile "/tmp/missing.gnucash" false
    bookW rfl rfl

/-- C8: `list_accounts` renders the account lines joined by newlines after
sorting: the emitted line list is sorted, is exactly the account lines up
to permutation, and repeated calls on an unchanged tree give identical
output. -/
theorem list_accounts_sorted_stable (w : World) (book : Book)
    (hs : w.session = some book) :
    ∃ lines : List String,
      list_accounts w = String.intercalate "\n" lines
      ∧ List.Sorted (fun a b => a ≤ b) lines
      ∧ List.Perm lines (book.accounts.map accountLine)
      ∧ list_accounts w = list_accounts w := by
  refine ⟨List.insertionSort (fun a b => a ≤ b) (book.accounts.map accountLine),
    ?_, ?_, ?_, rfl⟩
  · simp [list_accounts, hs]
  · exact List.sorted_insertionSort _ _
  · exact List.perm_insertionSort _ _

/-- C8 witness over the concrete three-account book. -/
theorem list_accounts_sorted_stable_witness :
    ∃ lines : List String,
      list_accounts wOpen = String.intercalate "\n" lines
      ∧ List.Sorted (fun a b => a ≤ b) lines
      ∧ List.Perm lines (bookW.accounts.map accountLine)
      ∧ list_accounts wOpen = list_accounts wOpen :=
  list_accounts_sorted_stable wOpen bookW rfl

/-- C10: with `limit = 0` the slice `splits[-0:]` is `splits[0:]`, the whole
list, so `get_transactions` renders every split of the account rather than
none. -/
theorem get_transactions_limit_zero_returns_all (w : World) (book : Book)
    (q : String) (acc : Account) (hs : w.session = some book)
    (hr : resolve_read_query book.accounts q = some acc)
    (hne : acc.splits ≠ []) :
    get_transactions w q 0
      = "Transactions for " ++ acc.fullName ++ ":\n"
        ++ String.mk (List.replicate 60 '-') ++ "\n"
        ++ String.intercalate "\n"
            (acc.splits.map (renderTxLine (currencyName acc.commodity))) := by
  have hempty : acc.splits.isEmpty = false := by
    cases h : acc.splits with
    | nil => exact absurd h hne
    | cons a t => rfl
  have hslice : pySliceFrom acc.splits (0 : Int) = acc.splits := by
    have hmin : min (0 : Int) (acc.splits.length : Int) = 0 :=
      min_eq_left (by positivity)
    simp [pySliceFrom, hmin]
  simp [get_transactions, hs, hr, hempty, hslice]

def splitGroceries : AccSplit := ⟨⟨2024, 1, 2⟩, "groceries", ⟨-500, 100⟩⟩

def splitSalary : AccSplit := ⟨⟨2024, 1, 31⟩, "salary", ⟨250000, 100⟩⟩

def accCash : Account :=
  { mkAccount "Assets.Cash" 1 (some usd) with
      splits := [splitGroceries, splitSalary] }

def bookTx : Book := ⟨[accCash], []⟩

def wTx : World :=
  { session := some bookTx, configuredFile := none, fileExists := true,
    lockExists := false, probe := ProbeResult.ok 1, removeSucceeds := true,
    openOutcome := OpenOutcome.raised "e", write_mode := false }

/-- C10 witness: an account with two splits and `limit = 0`. -/
theorem get_transactions_limit_zero_returns_all_witness :
    get_transactions wTx "Cash" 0
      = "Transactions for " ++ accCash.fullName ++ ":\n"
        ++ String.mk (List.replicate 60 '-') ++ "\n"
        ++ String.intercalate "\n"
            (accCash.splits.map (renderTxLine (currencyName accCash.commodity))) :=
  get_transactions_limit_zero_returns_all wTx bookTx "Cash" accCash rfl
    (by decide) (by decide)

/-- C1: every successful `add_transaction` commits exactly one new
transaction holding two splits over the source commodity's fraction — the
source split with value `-round(amount * fraction)` against the source
account, the destination split with `+round(amount * fraction)` against the
destination account — and their values sum to exactly zero in the
transaction's currency. -/
theorem add_transaction_balanced (w : World) (book : Book)
    (from_account to_account : String) (amount : ℚ) (description : String)
    (date : Option String) (memo : Option String) (now : Date)
    (src dst : Account) (c : Commodity) (td : Date)
    (hs : w.session = some book)
    (hpos : ¬ amount ≤ 0)
    (hsrc : find_account book.accounts from_account = some src)
    (hdst : find_account book.accounts to_account = some dst)
    (hc : src.commodity = some c)
    (hcm : currencyMismatch c dst.commodity = false)
    (hd : parseTxDate date now = some td) :
    ∃ tx : Transaction,
      (add_transaction w from_account to_account amount description date
          memo now).1 = commitTx w book tx
      ∧ tx.splits.length = 2
      ∧ tx.currency = c
      ∧ tx.splits.map Split.value
          = [⟨-(pyRound (amount * (c.fraction : ℚ))), c.fraction⟩,
             ⟨pyRound (amount * (c.fraction : ℚ)), c.fraction⟩]
      ∧ tx.splits.map Split.account = [src.fullName, dst.fullName]
      ∧ txValueSum tx = 0 := by
  refine ⟨⟨c, description, now, td,
    [⟨src.fullName, ⟨-(pyRound (amount * (c.fraction : ℚ))), c.fraction⟩,
      ⟨-(pyRound (amount * (c.fraction : ℚ))), c.fraction⟩, memo⟩,
     ⟨dst.fullName, ⟨pyRound (amount * (c.fraction : ℚ)), c.fraction⟩,
      ⟨pyRound (amount * (c.fraction : ℚ)), c.fraction⟩, memo⟩]⟩,
    ?_, rfl, rfl, rfl, rfl, ?_⟩
  · simp [add_transaction, hs, hpos, hsrc, hdst, hc, hcm, hd, commitTx]
  · simp only [txValueSum, List.map_cons, List.map_nil, List.sum_cons,
      List.sum_nil, gncToRat]
    push_cast
    ring

/-- C1 witness: a 5.00 USD transfer between the two bank accounts. -/
theorem add_transaction_balanced_witness :
    ∃ tx : Transaction,
      (add_transaction wOpen "Checking" "Savings" 5 "transfer" none none
          ⟨2024, 3, 7⟩).1 = commitTx wOpen bookW tx
      ∧ tx.splits.length = 2
      ∧ tx.currency = usd
      ∧ tx.splits.map Split.value
          = [⟨-(pyRound ((5 : ℚ) * (usd.fraction : ℚ))), usd.fraction⟩,
             ⟨pyRound ((5 : ℚ) * (usd.fraction : ℚ)), usd.fraction⟩]
      ∧ tx.splits.map Split.account
          = [accChecking.fullName, accSavings.fullName]
      ∧ txValueSum tx = 0 :=
  add_transaction_balanced wOpen bookW "Checking" "Savings" 5 "transfer"
    none none ⟨2024, 3, 7⟩ accChecking accSavings usd ⟨2024, 3, 7⟩
    rfl (by decide) (by decide) (by decide) rfl (by decide) rfl

/-- C2: a rejected `add_transaction` call — no open session, non-positive
amount, unresolvable source or destination, missing source commodity,
currency mismatch or unparseable date — returns the world unchanged: no
transaction and no split is created; in particular a USD-to-EUR transfer
fails with the currency-mismatch error and creates nothing. -/
theorem add_transaction_reject_unchanged :
    (∀ (w : World) (fa ta : String) (amount : ℚ) (d : String)
       (date : Option String) (memo : Option String) (now : Date),
       addTxAccepted w fa ta amount date = false →
         (add_transaction w fa ta amount d date memo now).1 = w)
    ∧ (∀ (w : World) (book : Book) (fa ta : String) (amount : ℚ) (d : String)
         (date : Option String) (memo : Option String) (now : Date)
         (src dst : Account) (cs cd : Commodity),
       w.session = some book → 0 < amount →
       find_account book.accounts fa = some src →
       find_account book.accounts ta = some dst →
       src.commodity = some cs → dst.commodity = some cd →
       cs.mnemonic = "USD" → cd.mnemonic = "EUR" →
         add_transaction w fa ta amount d date memo now
           = (w, "Error: Account currencies don\x27t match (USD vs EUR). Multi-currency transactions are not supported.")) := by
  constructor
  · intro w fa ta amount d date memo now h
    cases hs : w.session with
    | none => simp [add_transaction, hs]
    | some book =>
      by_cases hle : amount ≤ 0
      · simp [add_transaction, hs, hle]
      · cases hsrc : find_account book.accounts fa with
        | none => simp [add_transaction, hs, hle, hsrc]
        | some src =>
          cases hdst : find_account book.accounts ta with
          | none => simp [add_transaction, hs, hle, hsrc, hdst]
          | some dst =>
            cases hc : src.commodity with
            | none => simp [add_transaction, hs, hle, hsrc, hdst, hc]
            | some c =>
              cases hcm : currencyMismatch c dst.commodity with
              | true => simp [add_transaction, hs, hle, hsrc, hdst, hc, hcm]
              | false =>
                cases hd : parseTxDate date now with
                | none =>
                  simp [add_transaction, hs, hle, hsrc, hdst, hc, hcm, hd]
                | some td =>
                  exfalso
                  have htrue : addTxAccepted w fa ta amount date = true := by
                    cases date with
                    | none =>
                      simp [addTxAccepted, hs, hle, hsrc, hdst, hc, hcm]
                    | some ds =>
                      have hp : parseDateYMD ds = some td := hd
                      simp [addTxAccepted, hs, hle, hsrc, hdst, hc, hcm, hp]
                  rw [htrue] at h
                  exact Bool.noConfusion h
  · intro w book fa ta amount d date memo now src dst cs cd hs hpos hsrc hdst
      hcs hcd hmus hmeur
    have hle : ¬ amount ≤ 0 := not_le.mpr hpos
    have hcm : currencyMismatch cs dst.commodity = true := by
      rw [hcd]
      simp [currencyMismatch, hmus, hmeur]
    have hname : currencyName dst.commodity = "EUR" := by
      rw [hcd]
      simp [currencyName, hmeur]
    simp [add_transaction, hs, hle, hsrc, hdst, hcs, hcm, hname, hmus]

/-- C2 witness: a negative-amount rejection and a USD-to-EUR rejection, both
leaving the world unchanged. -/
theorem add_transaction_reject_unchanged_witness :
    (add_transaction wOpen "Checking" "Savings" (-3) "x" none none
        ⟨2024, 1, 1⟩).1 = wOpen
    ∧ add_transaction wOpen "Checking" "Euro" 5 "x" none none ⟨2024, 1, 1⟩
        = (wOpen, "Error: Account currencies don\x27t match (USD vs EUR). Multi-currency transactions are not supported.") :=
  ⟨add_transaction_reject_unchanged.1 wOpen "Checking" "Savings" (-3) "x"
      none none ⟨2024, 1, 1⟩ (by decide),
   add_transaction_reject_unchanged.2 wOpen bookW "Checking" "Euro" 5 "x"
      none none ⟨2024, 1, 1⟩ accChecking accEuro usd eur rfl (by decide)
      (by decide) (by decide) rfl rfl rfl rfl⟩

/-- C6: with a fraction-100 source commodity, transferring `12.34` produces
two splits with numerators `-1234` and `1234` over denominator `100`, and
re-deriving the decimal amount from the positive split yields exactly
`12.34`. -/
theorem add_transaction_round_trip_1234 (w : World) (book : Book)
    (from_account to_account : String) (description : String)
    (date : Option String) (memo : Option String) (now : Date)
    (src dst : Account) (c : Commodity) (td : Date)
    (hs : w.session = some book)
    (hsrc : find_account book.accounts from_account = some src)
    (hdst : find_account book.accounts to_account = some dst)
    (hc : src.commodity = some c)
    (hf : c.fraction = 100)
    (hcm : currencyMismatch c dst.commodity = false)
    (hd : parseTxDate date now = some td) :
    ∃ tx : Transaction,
      (add_transaction w from_account to_account (12.34 : ℚ) description date
          memo now).1 = commitTx w book tx
      ∧ tx.splits.map Split.value = [⟨-1234, 100⟩, ⟨1234, 100⟩]
      ∧ gncToRat ⟨1234, 100⟩ = (12.34 : ℚ) := by
  obtain ⟨mn, frac⟩ := c
  simp only [Commodity.fraction] at hf
  subst hf
  have hpos : ¬ (12.34 : ℚ) ≤ 0 := by norm_num
  have hround : pyRound ((12.34 : ℚ) * 100) = 1234 := by
    norm_num [pyRound]
  refine ⟨⟨⟨mn, 100⟩, description, now, td,
    [⟨src.fullName, ⟨-1234, 100⟩, ⟨-1234, 100⟩, memo⟩,
     ⟨dst.fullName, ⟨1234, 100⟩, ⟨1234, 100⟩, memo⟩]⟩, ?_, rfl, ?_⟩
  · simp [add_transaction, hs, hpos, hsrc, hdst, hc, hcm, hd, commitTx,
      hround]
  · norm_num [gncToRat]

/-- C6 witness: the 12.34 USD transfer between the two bank accounts. -/
theorem add_transaction_round_trip_1234_witness :
    ∃ tx : Transaction,
      (add_transaction wOpen "Checking" "Savings" (12.34 : ℚ) "transfer"
          none none ⟨2024, 3, 7⟩).1 = commitTx wOpen bookW tx
      ∧ tx.splits.map Split.value = [⟨-1234, 100⟩, ⟨1234, 100⟩]
      ∧ gncToRat ⟨1234, 100⟩ = (12.34 : ℚ) :=
  add_transaction_round_trip_1234 wOpen bookW "Checking" "Savings" "transfer"
    none none ⟨2024, 3, 7⟩ accChecking accSavings usd ⟨2024, 3, 7⟩
    rfl (by decide) (by decide) rfl rfl (by decide) rfl

